import Mathlib

/-!
Verification of the expothesis experimentation backend (Rust).

This file gives a shallow embedding of the pure algorithmic core of the
repository: the bucket-assignment engine (`user_group_service.rs`), the
targeting-rule evaluator (`targeting.rs`), the statistical inference
engine (`stats/analysis.rs`), the CUPED variance-reduction calculator
(`stats/cuped.rs`), the guardrail health-check evaluator
(`experiment_service.rs`) and the SRM computation (`analytics_service.rs`).

Modelling conventions:
- `f64` values are modelled by `Fp`, an inductive with a finite rational
  payload plus the IEEE special values `inf`, `neginf` and `nan`.  Finite
  arithmetic is exact rational arithmetic (rounding and overflow of the
  binary64 format are not modelled); the propagation of the special values
  through `+`, `-`, `*`, `/`, `sqrt`, `max` and the comparisons follows
  IEEE-754 semantics as used by Rust `f64` (in particular `f64::max`
  ignores a NaN argument, and every comparison with NaN is false).
- Purely finite computations (the CUPED calculator, the SRM core) are
  modelled directly over `ℚ`.
- The transcendental functions supplied by the `statrs` crate (normal CDF,
  Student-t CDF and inverse CDF, chi-squared CDF, square root rounded to
  `f64`) are taken as explicit function parameters; theorems that need
  facts about them (e.g. that the CDF of a finite argument is finite)
  take those facts as hypotheses.
- Rust panics (out-of-bounds indexing) and fallible constructors are
  modelled with `Option` / `Except`.
-/

namespace Expothesis

/-- Model of an `f64` value: a finite rational, or one of the IEEE special
values. Finite arithmetic is exact; special values propagate as in IEEE-754. -/
inductive Fp where
  | nan : Fp
  | inf : Fp
  | neginf : Fp
  | finite (q : ℚ) : Fp
deriving DecidableEq

namespace Fp

/-- Rust `f64::is_finite`. -/
def isFinite : Fp → Bool
  | finite _ => true
  | _ => false

/-- IEEE negation. -/
def neg : Fp → Fp
  | nan => nan
  | inf => neginf
  | neginf => inf
  | finite a => finite (-a)

/-- IEEE addition (exact on finite values). -/
def add : Fp → Fp → Fp
  | nan, _ => nan
  | _, nan => nan
  | inf, neginf => nan
  | neginf, inf => nan
  | inf, _ => inf
  | _, inf => inf
  | neginf, _ => neginf
  | _, neginf => neginf
  | finite a, finite b => finite (a + b)

/-- IEEE subtraction. -/
def sub (a b : Fp) : Fp := add a (neg b)

/-- IEEE multiplication (exact on finite values; `inf * 0 = nan`). -/
def mul : Fp → Fp → Fp
  | nan, _ => nan
  | _, nan => nan
  | inf, inf => inf
  | inf, neginf => neginf
  | neginf, inf => neginf
  | neginf, neginf => inf
  | inf, finite b => if 0 < b then inf else if b < 0 then neginf else nan
  | finite a, inf => if 0 < a then inf else if a < 0 then neginf else nan
  | neginf, finite b => if 0 < b then neginf else if b < 0 then inf else nan
  | finite a, neginf => if 0 < a then neginf else if a < 0 then inf else nan
  | finite a, finite b => finite (a * b)

/-- IEEE division. Signed zero is not modelled: `x / ±inf` is the single
zero `finite 0`, and division of a nonzero finite value by `finite 0`
follows the sign of the numerator (Rust `1.0 / 0.0 = inf`). -/
def div : Fp → Fp → Fp
  | nan, _ => nan
  | _, nan => nan
  | inf, inf => nan
  | inf, neginf => nan
  | neginf, inf => nan
  | neginf, neginf => nan
  | inf, finite b => if b < 0 then neginf else inf
  | neginf, finite b => if b < 0 then inf else neginf
  | finite _, inf => finite 0
  | finite _, neginf => finite 0
  | finite a, finite b =>
      if b = 0 then (if 0 < a then inf else if a < 0 then neginf else nan)
      else finite (a / b)

/-- IEEE square root; the finite branch is delegated to `fsqrtQ`, the
square-root function of the `f64` format restricted to (exactly
representable) rationals, taken as a parameter. -/
def sqrt (fsqrtQ : ℚ → ℚ) : Fp → Fp
  | nan => nan
  | inf => inf
  | neginf => nan
  | finite q => if q < 0 then nan else finite (fsqrtQ q)

/-- Rust `f64::max`: a NaN argument is ignored, not propagated. -/
def fmax : Fp → Fp → Fp
  | nan, b => b
  | a, nan => a
  | inf, _ => inf
  | _, inf => inf
  | neginf, b => b
  | a, neginf => a
  | finite a, finite b => finite (max a b)

/-- IEEE strict less-than: every comparison with NaN is false. -/
def lt : Fp → Fp → Bool
  | nan, _ => false
  | _, nan => false
  | finite a, finite b => decide (a < b)
  | finite _, inf => true
  | neginf, finite _ => true
  | neginf, inf => true
  | _, _ => false

/-- IEEE less-or-equal: every comparison with NaN is false. -/
def le : Fp → Fp → Bool
  | nan, _ => false
  | _, nan => false
  | finite a, finite b => decide (a ≤ b)
  | finite _, inf => true
  | neginf, finite _ => true
  | neginf, inf => true
  | inf, inf => true
  | neginf, neginf => true
  | _, _ => false

/-- Rust `f64::abs`. -/
def fabs : Fp → Fp
  | nan => nan
  | inf => inf
  | neginf => inf
  | finite a => finite |a|

instance : Add Fp := ⟨Fp.add⟩
instance : Sub Fp := ⟨Fp.sub⟩
instance : Mul Fp := ⟨Fp.mul⟩
instance : Div Fp := ⟨Fp.div⟩
instance : Neg Fp := ⟨Fp.neg⟩

instance (n : ℕ) : OfNat Fp n := ⟨Fp.finite (OfNat.ofNat n)⟩

/-- Cast of a Rust integer count (`usize as f64`); exact in the model. -/
def ofNat (n : ℕ) : Fp := finite (n : ℚ)

end Fp

/-- Arithmetic mean as computed by `statrs::statistics::Statistics::mean`
(exact-rational model); the empty list yields `0 / 0 = 0` in `ℚ`. -/
def qmean (xs : List ℚ) : ℚ := xs.sum / (xs.length : ℚ)

/-- Unbiased sample variance as computed by
`statrs::statistics::Statistics::variance` (denominator `n - 1`),
exact-rational model. -/
def qvariance (xs : List ℚ) : ℚ :=
  (xs.map (fun x => (x - qmean xs) ^ 2)).sum / ((xs.length : ℚ) - 1)

/-- Experiment variant (`models`): name, allocation percentage, control flag.
The `f64` allocation is modelled as an exact rational. -/
structure Variant where
  name : String
  allocation_percent : ℚ
  is_control : Bool
deriving DecidableEq

/-- Sampling method of an experiment (`SamplingMethod` in the models). -/
inductive SamplingMethod where
  | Hash : SamplingMethod
  | Random : SamplingMethod
  | Stratified : SamplingMethod
deriving DecidableEq

/-- Model of a `serde_json::Value`: null, boolean, number (exact rational),
string, array, or object as an association list in insertion order. -/
inductive JsonValue where
  | null : JsonValue
  | bool (b : Bool) : JsonValue
  | num (q : ℚ) : JsonValue
  | str (s : String) : JsonValue
  | arr (xs : List JsonValue) : JsonValue
  | obj (fields : List (String × JsonValue)) : JsonValue

namespace JsonValue

mutual

/-- Structural equality of JSON values, modelling `serde_json` `==`
(objects are compared in insertion order in this model, which is enough
for the fail-closed properties verified here). -/
def beq : JsonValue → JsonValue → Bool
  | JsonValue.obj fieldsA, JsonValue.obj fieldsB => beqObj fieldsA fieldsB
  | JsonValue.arr itemsA, JsonValue.arr itemsB => beqArr itemsA itemsB
  | JsonValue.str a, JsonValue.str b => a == b
  | JsonValue.num a, JsonValue.num b => a == b
  | JsonValue.bool a, JsonValue.bool b => a == b
  | JsonValue.null, JsonValue.null => true
  | _, _ => false

/-- Equality of JSON arrays, element by element. -/
def beqArr : List JsonValue → List JsonValue → Bool
  | itemA :: restA, other =>
      match other with
      | itemB :: restB => beq itemA itemB && beqArr restA restB
      | [] => false
  | [], other => other.isEmpty

/-- Equality of JSON objects, field by field (name, then value). -/
def beqObj : List (String × JsonValue) → List (String × JsonValue) → Bool
  | fieldA :: restA, other =>
      match fieldA, other with
      | (ka, va), (kb, vb) :: restB => ka == kb && (beq va vb && beqObj restA restB)
      | _, [] => false
  | [], other => other.isEmpty

end

/-- `serde_json::Value::get` with a string key: field lookup on objects,
`None` on every other value. -/
def get : JsonValue → String → Option JsonValue
  | obj fields, key => (fields.find? (fun f => f.1 == key)).map (fun f => f.2)
  | _, _ => none

/-- `serde_json::Value::as_str`. -/
def asStr : JsonValue → Option String
  | str s => some s
  | _ => none

/-- `serde_json::Value::as_f64` (numbers only in this model). -/
def asF64 : JsonValue → Option ℚ
  | num q => some q
  | _ => none

/-- `serde_json::Value::as_array`. -/
def asArray : JsonValue → Option (List JsonValue)
  | arr xs => some xs
  | _ => none

end JsonValue

/-- Walk of the variant list in `hash_user_to_variant`
(`user_group_service.rs`): accumulate `allocation_percent` and return the
first variant whose cumulative allocation strictly exceeds `hashPercent`. -/
def bucketWalk (hashPercent : ℚ) : List Variant → ℚ → Option String
  | [], _ => none
  | v :: rest, cumulative =>
      let c := cumulative + v.allocation_percent
      if hashPercent < c then some v.name else bucketWalk hashPercent rest c

/-- `UserGroupService::hash_user_to_variant` (`user_group_service.rs`).
The 64-bit `DefaultHasher` digest of `(user_id, experiment_id)` is an
opaque pure function supplied as the parameter `hash2` (its exact
algorithm, SipHash-1-3 with fixed keys, is outside the repository).
The `variants[0]` fallback panics on an empty list, modelled as `none`. -/
def hash_user_to_variant (hash2 : String → String → ℕ)
    (user_id experiment_id : String) (variants : List Variant) : Option String :=
  let hash := hash2 user_id experiment_id
  let hash_percent : ℚ := ((hash % 10000 : ℕ) : ℚ) / 100
  match bucketWalk hash_percent variants 0 with
  | some nm => some nm
  | none => variants.head?.map Variant.name

/-- `UserGroupService::hash_user_to_variant_with_salt`: as above with the
salt hashed in; `hash3` is the digest of `(user_id, experiment_id, salt)`. -/
def hash_user_to_variant_with_salt (hash3 : String → String → String → ℕ)
    (user_id experiment_id : String) (variants : List Variant)
    (salt : String) : Option String :=
  let hash := hash3 user_id experiment_id salt
  let hash_percent : ℚ := ((hash % 10000 : ℕ) : ℚ) / 100
  match bucketWalk hash_percent variants 0 with
  | some nm => some nm
  | none => variants.head?.map Variant.name

/-- Salt chosen by `select_variant` for `SamplingMethod::Stratified`: the
first of the `stratum`, `segment`, `region` attributes that is present,
kept only if it is a string, else `"default"`. -/
def stratifiedSalt (attributes : Option JsonValue) : String :=
  ((attributes.bind (fun attrs =>
      ((attrs.get "stratum").or ((attrs.get "segment").or (attrs.get "region"))))).bind
    JsonValue.asStr).getD "default"

/-- `UserGroupService::select_variant` (`user_group_service.rs`): dispatch
on the sampling method, choosing the salt for the salted hash. -/
def select_variant (hash2 : String → String → ℕ)
    (hash3 : String → String → String → ℕ)
    (user_id experiment_id : String) (variants : List Variant)
    (sampling_method : SamplingMethod) (sampling_seed : ℕ)
    (attributes : Option JsonValue) : Option String :=
  match sampling_method with
  | SamplingMethod.Random =>
      let salt := "seed:" ++ toString sampling_seed
      hash_user_to_variant_with_salt hash3 user_id experiment_id variants salt
  | SamplingMethod.Stratified =>
      hash_user_to_variant_with_salt hash3 user_id experiment_id variants
        (stratifiedSalt attributes)
  | SamplingMethod.Hash => hash_user_to_variant hash2 user_id experiment_id variants

/-- Targeting condition operator (`targeting.rs`). -/
inductive Operator where
  | Equals | NotEquals | Contains | Regex | In | Gt | Lt
deriving DecidableEq

/-- A single targeting condition (`targeting.rs`).  The Rust fields are
`attribute`, `operator`, `value`; the first is a Lean keyword and is
therefore named `attr` here. -/
structure Condition where
  attr : String
  operator : Operator
  value : JsonValue

/-- A parsed targeting rule (`targeting.rs`). -/
structure TargetingRule where
  version : String
  conditions : List Condition

namespace TargetingEngine

/-- `TargetingEngine::evaluate_condition` (`targeting.rs`).  Regex
compilation (the `regex` crate) is modelled by the parameter
`compileRegex`, returning `none` exactly on invalid patterns; string
containment by `String.isSubstrOf`. The function is total, so no
evaluation can panic. -/
def evaluate_condition (compileRegex : String → Option (String → Bool))
    (condition : Condition) (attributes : JsonValue) : Bool :=
  match attributes.get condition.attr with
  | none => false
  | some attr_value =>
    match condition.operator with
    | Operator.Equals => attr_value.beq condition.value
    | Operator.NotEquals => !(attr_value.beq condition.value)
    | Operator.Contains =>
        match attr_value.asStr, condition.value.asStr with
        | some val_str, some cond_str => val_str.containsSubstr cond_str.toSubstring
        | _, _ => false
    | Operator.Regex =>
        match attr_value.asStr, condition.value.asStr with
        | some val_str, some regex_str =>
            match compileRegex regex_str with
            | some re => re val_str
            | none => false
        | _, _ => false
    | Operator.In =>
        match condition.value.asArray with
        | some xs => xs.any (fun v => v.beq attr_value)
        | none => false
    | Operator.Gt =>
        match attr_value.asF64, condition.value.asF64 with
        | some v, some c => decide (c < v)
        | _, _ => false
    | Operator.Lt =>
        match attr_value.asF64, condition.value.asF64 with
        | some v, some c => decide (v < c)
        | _, _ => false

/-- `TargetingEngine::evaluate` (`targeting.rs`).  The JSON parse of the
rule string (`serde_json::from_str`) is modelled by its result: `none` on
parse failure (the fail-closed branch), `some rule` on success. -/
def evaluate (compileRegex : String → Option (String → Bool))
    (parsedRule : Option TargetingRule) (attributes : JsonValue) : Bool :=
  match parsedRule with
  | none => false
  | some rule =>
      if rule.conditions.isEmpty then true
      else rule.conditions.all (fun c => evaluate_condition compileRegex c attributes)

end TargetingEngine

/-- Analysis engine selected per experiment (`models::AnalysisEngine`). -/
inductive AnalysisEngine where
  | Frequentist : AnalysisEngine
  | Bayesian : AnalysisEngine
deriving DecidableEq

/-- Output record of the dispatch functions in `stats/analysis.rs`. -/
structure EngineResult where
  effect_size : Fp
  p_value : Fp
  bayes_probability : Option Fp
  ci_low : Fp
  ci_high : Fp
  test_type : String
deriving DecidableEq

/-- The output of a dispatch function has finite (non-NaN, non-infinite)
p-value and confidence-interval bounds. -/
def EngineResult.finiteOutputs (r : EngineResult) : Prop :=
  r.p_value.isFinite = true ∧ r.ci_low.isFinite = true ∧ r.ci_high.isFinite = true

/-- The `(effect, p_value, ci_low, ci_high)` tuple returned by one of the
underlying test functions has finite p-value and CI bounds. -/
def finiteTriple (r : Fp × Fp × Fp × Fp) : Prop :=
  r.2.1.isFinite = true ∧ r.2.2.1.isFinite = true ∧ r.2.2.2.isFinite = true

/-- `z_test_proportions` (`stats/analysis.rs`): two-proportion z-test.
`ncdf` is the standard normal CDF of `statrs` (`Normal::new(0,1).cdf`).
Returns `(effect_size, p_value, ci_low, ci_high)`. -/
def z_test_proportions (fsqrtQ : ℚ → ℚ) (ncdf : Fp → Fp)
    (successes_a total_a successes_b total_b : ℕ) : Fp × Fp × Fp × Fp :=
  if total_a = 0 ∨ total_b = 0 then (0, 1, 0, 0)
  else
    let p1 := Fp.ofNat successes_a / Fp.ofNat total_a
    let p2 := Fp.ofNat successes_b / Fp.ofNat total_b
    let p_pooled := Fp.ofNat (successes_a + successes_b) / Fp.ofNat (total_a + total_b)
    let se := Fp.sqrt fsqrtQ
      (p_pooled * (1 - p_pooled) * (1 / Fp.ofNat total_a + 1 / Fp.ofNat total_b))
    if !se.isFinite || se.le 0 then
      let effect_size := p1 - p2
      (effect_size, 1, effect_size, effect_size)
    else
      let z := (p1 - p2) / se
      let p_value := 2 * (1 - ncdf z.fabs)
      let effect_size := p1 - p2
      let ci_margin := Fp.finite (49 / 25) * se
      (effect_size, p_value, effect_size - ci_margin, effect_size + ci_margin)

/-- `t_test_summary` (`stats/analysis.rs`): Welch t-test from summary
statistics.  `tcdf df x` is `StudentsT::new(0,1,df).cdf(x)` and
`tinv df x` its inverse CDF; `powi(2)` is modelled as self-multiplication. -/
def t_test_summary (fsqrtQ : ℚ → ℚ) (tcdf tinv : Fp → Fp → Fp)
    (mean_a std_a : ℚ) (n_a : ℕ) (mean_b std_b : ℚ) (n_b : ℕ) : Fp × Fp × Fp × Fp :=
  if n_a < 2 ∨ n_b < 2 then
    let effect_size := Fp.finite (mean_a - mean_b)
    (effect_size, 1, effect_size, effect_size)
  else
    let na := Fp.ofNat n_a
    let nb := Fp.ofNat n_b
    let var_a := Fp.finite std_a * Fp.finite std_a
    let var_b := Fp.finite std_b * Fp.finite std_b
    let se := Fp.sqrt fsqrtQ (var_a / na + var_b / nb)
    if !se.isFinite || se.le 0 then
      let effect_size := Fp.finite (mean_a - mean_b)
      (effect_size, 1, effect_size, effect_size)
    else
      let t_stat := (Fp.finite mean_a - Fp.finite mean_b) / se
      let df := ((var_a / na + var_b / nb) * (var_a / na + var_b / nb)) /
        ((var_a / na) * (var_a / na) / (na - 1) + (var_b / nb) * (var_b / nb) / (nb - 1))
      if !df.isFinite || df.le 0 then
        let effect_size := Fp.finite (mean_a - mean_b)
        (effect_size, 1, effect_size, effect_size)
      else
        let p_value := 2 * (1 - tcdf df t_stat.fabs)
        let effect_size := Fp.finite (mean_a - mean_b)
        let ci_margin := tinv df (Fp.finite (39 / 40)) * se
        (effect_size, p_value, effect_size - ci_margin, effect_size + ci_margin)

/-- `bayes_proportion` (`stats/analysis.rs`): Beta(1,1)-Binomial posterior
normal approximation.  Returns `(diff_mean, probability, ci_low, ci_high)`;
`usize::saturating_sub` is Lean `Nat` subtraction. -/
def bayes_proportion (fsqrtQ : ℚ → ℚ) (ncdf : Fp → Fp)
    (successes_a total_a successes_b total_b : ℕ) : Fp × Fp × Fp × Fp :=
  let failures_a := Fp.ofNat (total_a - successes_a)
  let failures_b := Fp.ofNat (total_b - successes_b)
  let alpha_a := 1 + Fp.ofNat successes_a
  let beta_a := 1 + failures_a
  let alpha_b := 1 + Fp.ofNat successes_b
  let beta_b := 1 + failures_b
  let mean_a := alpha_a / (alpha_a + beta_a)
  let mean_b := alpha_b / (alpha_b + beta_b)
  let var_a := (alpha_a * beta_a) /
    ((alpha_a + beta_a) * (alpha_a + beta_a) * (alpha_a + beta_a + 1))
  let var_b := (alpha_b * beta_b) /
    ((alpha_b + beta_b) * (alpha_b + beta_b) * (alpha_b + beta_b + 1))
  let diff_mean := mean_b - mean_a
  let diff_var := var_a + var_b
  let diff_se := (Fp.sqrt fsqrtQ diff_var).fmax (Fp.finite (1 / 1000000000))
  let z := diff_mean / diff_se
  let probability := ncdf z
  let ci_margin := Fp.finite (49 / 25) * diff_se
  (diff_mean, probability, diff_mean - ci_margin, diff_mean + ci_margin)

/-- `bayes_continuous` (`stats/analysis.rs`): normal approximation on
supplied means / standard deviations / sample sizes. -/
def bayes_continuous (fsqrtQ : ℚ → ℚ) (ncdf : Fp → Fp)
    (mean_a std_a : ℚ) (n_a : ℕ) (mean_b std_b : ℚ) (n_b : ℕ) : Fp × Fp × Fp × Fp :=
  let na := Fp.ofNat n_a
  let nb := Fp.ofNat n_b
  let se := (Fp.sqrt fsqrtQ
      (Fp.finite std_a * Fp.finite std_a / na + Fp.finite std_b * Fp.finite std_b / nb)).fmax
    (Fp.finite (1 / 1000000000))
  let diff_mean := Fp.finite mean_b - Fp.finite mean_a
  let z := diff_mean / se
  let probability := ncdf z
  let ci_margin := Fp.finite (49 / 25) * se
  (diff_mean, probability, diff_mean - ci_margin, diff_mean + ci_margin)

/-- `analyze_proportion` (`stats/analysis.rs`): dispatch on the engine. -/
def analyze_proportion (fsqrtQ : ℚ → ℚ) (ncdf : Fp → Fp) (engine : AnalysisEngine)
    (successes_a total_a successes_b total_b : ℕ) : EngineResult :=
  match engine with
  | AnalysisEngine.Bayesian =>
      let r := bayes_proportion fsqrtQ ncdf successes_a total_a successes_b total_b
      { effect_size := r.1
        p_value := 1 - r.2.1
        bayes_probability := some r.2.1
        ci_low := r.2.2.1
        ci_high := r.2.2.2
        test_type := "Bayesian (Beta-Binomial)" }
  | AnalysisEngine.Frequentist =>
      let r := z_test_proportions fsqrtQ ncdf successes_a total_a successes_b total_b
      { effect_size := r.1
        p_value := r.2.1
        bayes_probability := none
        ci_low := r.2.2.1
        ci_high := r.2.2.2
        test_type := "Z-test for proportions" }

/-- Minimum number of matched users required for CUPED analysis
(`MIN_CUPED_SAMPLE_SIZE` in `stats/cuped.rs`). -/
def MIN_CUPED_SAMPLE_SIZE : ℕ := 100

/-- Errors of `CupedCalculator::new` (`stats/cuped.rs`), one constructor
per `anyhow!` message, carrying the data interpolated into the message:
`lengthMismatch` the two lengths, `noData` nothing, and
`insufficientSample` the actual user count and the required minimum. -/
inductive CupedError where
  | lengthMismatch (pre_len post_len : ℕ) : CupedError
  | noData : CupedError
  | insufficientSample (actual required : ℕ) : CupedError
deriving DecidableEq

/-- `CupedCalculator` (`stats/cuped.rs`): matched pre/post value vectors. -/
structure CupedCalculator where
  pre_values : List ℚ
  post_values : List ℚ
deriving DecidableEq

namespace CupedCalculator

/-- `CupedCalculator::new` (`stats/cuped.rs`): validates that the vectors
have equal length, are non-empty and reach the minimum sample size, in
that order. -/
def new (pre_values post_values : List ℚ) : Except CupedError CupedCalculator :=
  if pre_values.length ≠ post_values.length then
    Except.error (CupedError.lengthMismatch pre_values.length post_values.length)
  else if pre_values.isEmpty then
    Except.error CupedError.noData
  else if pre_values.length < MIN_CUPED_SAMPLE_SIZE then
    Except.error (CupedError.insufficientSample pre_values.length MIN_CUPED_SAMPLE_SIZE)
  else
    Except.ok { pre_values := pre_values, post_values := post_values }

/-- `CupedCalculator::calculate_theta` (`stats/cuped.rs`):
`θ = Cov(pre, post) / Var(pre)`, short-circuited to `0` when
`Var(pre) < 1e-12`. -/
def calculate_theta (c : CupedCalculator) : ℚ :=
  let var_x := qvariance c.pre_values
  if var_x < 1 / 1000000000000 then 0
  else
    let mean_x := qmean c.pre_values
    let mean_y := qmean c.post_values
    let n : ℚ := c.pre_values.length
    let cov_xy := ((c.pre_values.zip c.post_values).map
      (fun p => (p.1 - mean_x) * (p.2 - mean_y))).sum / (n - 1)
    cov_xy / var_x

/-- `CupedCalculator::adjust_metrics` (`stats/cuped.rs`):
`y_adj = y - θ (x - mean(pre))` per matched pair. -/
def adjust_metrics (c : CupedCalculator) : List ℚ :=
  let theta := c.calculate_theta
  let mean_x := qmean c.pre_values
  (c.post_values.zip c.pre_values).map (fun p => p.1 - theta * (p.2 - mean_x))

/-- `CupedCalculator::compute_variance_reduction` (`stats/cuped.rs`):
`max(0, (1 - Var(adj)/Var(post)) * 100)`, short-circuited to `0` when
`Var(post) < 1e-12`. -/
def compute_variance_reduction (c : CupedCalculator) : ℚ :=
  let var_original := qvariance c.post_values
  if var_original < 1 / 1000000000000 then 0
  else
    let var_adjusted := qvariance c.adjust_metrics
    max ((1 - var_adjusted / var_original) * 100) 0

end CupedCalculator

/-- Result of `CupedCalculator::run` (`stats/cuped.rs`). -/
structure CupedAdjustment where
  theta : ℚ
  adjusted_mean : ℚ
  adjusted_std_dev : ℚ
  original_mean : ℚ
  original_std_dev : ℚ
  variance_reduction_percent : ℚ
  n_matched_users : ℕ
deriving DecidableEq

/-- `CupedCalculator::run` (`stats/cuped.rs`); standard deviation is the
square root of the sample variance, via the parameter `fsqrtQ`. -/
def CupedCalculator.run (fsqrtQ : ℚ → ℚ) (c : CupedCalculator) : CupedAdjustment :=
  let adjusted := c.adjust_metrics
  { theta := c.calculate_theta
    adjusted_mean := qmean adjusted
    adjusted_std_dev := fsqrtQ (qvariance adjusted)
    original_mean := qmean c.post_values
    original_std_dev := fsqrtQ (qvariance c.post_values)
    variance_reduction_percent := c.compute_variance_reduction
    n_matched_users := c.pre_values.length }

/-- `analyze_continuous` (`stats/analysis.rs`): dispatch on the engine. -/
def analyze_continuous (fsqrtQ : ℚ → ℚ) (ncdf : Fp → Fp) (tcdf tinv : Fp → Fp → Fp)
    (engine : AnalysisEngine)
    (mean_a std_a : ℚ) (n_a : ℕ) (mean_b std_b : ℚ) (n_b : ℕ) : EngineResult :=
  match engine with
  | AnalysisEngine.Bayesian =>
      let r := bayes_continuous fsqrtQ ncdf mean_a std_a n_a mean_b std_b n_b
      { effect_size := r.1
        p_value := 1 - r.2.1
        bayes_probability := some r.2.1
        ci_low := r.2.2.1
        ci_high := r.2.2.2
        test_type := "Bayesian (Normal Approx)" }
  | AnalysisEngine.Frequentist =>
      let r := t_test_summary fsqrtQ tcdf tinv mean_a std_a n_a mean_b std_b n_b
      { effect_size := r.1
        p_value := r.2.1
        bayes_probability := none
        ci_low := r.2.2.1
        ci_high := r.2.2.2
        test_type := "Welch t-test" }

/-- Metric type of a hypothesis (`models::MetricType`). -/
inductive MetricType where
  | Proportion : MetricType
  | Continuous : MetricType
  | Count : MetricType
deriving DecidableEq

/-- `models::Hypothesis`; `significance_level` is the configured alpha. -/
structure Hypothesis where
  null_hypothesis : String
  alternative_hypothesis : String
  expected_effect_size : ℚ
  metric_type : MetricType
  significance_level : ℚ
  power : ℚ
  minimum_sample_size : Option ℕ
deriving DecidableEq

/-- Aggregated per-variant metrics (`VariantMetrics` in
`experiment_service.rs`), as fetched from the analytics store. -/
structure VariantMetrics where
  total : ℕ
  successes : ℕ
  mean : ℚ
  std_dev : ℚ
  values : List ℚ
deriving DecidableEq

/-- `models::StatisticalResult` (identifier and timestamp fields elided). -/
structure StatisticalResult where
  variant_a : String
  variant_b : String
  metric_name : String
  sample_size_a : ℕ
  sample_size_b : ℕ
  mean_a : ℚ
  mean_b : ℚ
  std_dev_a : Option ℚ
  std_dev_b : Option ℚ
  effect_size : Fp
  p_value : Fp
  bayes_probability : Option Fp
  confidence_interval_lower : Fp
  confidence_interval_upper : Fp
  is_significant : Bool
  test_type : String
  analysis_engine : AnalysisEngine
deriving DecidableEq

/-- Loop body of `ExperimentService::analyze_experiment`
(`experiment_service.rs`, lines 241-302): build the `StatisticalResult`
for one control/treatment pair from already-fetched aggregates,
dispatching on the hypothesis metric type.  `is_significant` is set to
`p_value < 0.05` in both arms. -/
def analyzeVariantPair (fsqrtQ : ℚ → ℚ) (ncdf : Fp → Fp) (tcdf tinv : Fp → Fp → Fp)
    (engine : AnalysisEngine) (hyp : Hypothesis)
    (control_name variant_name primary_metric : String)
    (control_data treatment_data : VariantMetrics) : StatisticalResult :=
  match hyp.metric_type with
  | MetricType.Proportion =>
      let engine_result := analyze_proportion fsqrtQ ncdf engine
        control_data.successes control_data.total
        treatment_data.successes treatment_data.total
      { variant_a := control_name
        variant_b := variant_name
        metric_name := primary_metric
        sample_size_a := control_data.total
        sample_size_b := treatment_data.total
        mean_a := control_data.mean
        mean_b := treatment_data.mean
        std_dev_a := none
        std_dev_b := none
        effect_size := engine_result.effect_size
        p_value := engine_result.p_value
        bayes_probability := engine_result.bayes_probability
        confidence_interval_lower := engine_result.ci_low
        confidence_interval_upper := engine_result.ci_high
        is_significant := engine_result.p_value.lt (Fp.finite (1 / 20))
        test_type := engine_result.test_type
        analysis_engine := engine }
  | MetricType.Continuous =>
      let engine_result := analyze_continuous fsqrtQ ncdf tcdf tinv engine
        control_data.mean control_data.std_dev control_data.total
        treatment_data.mean treatment_data.std_dev treatment_data.total
      { variant_a := control_name
        variant_b := variant_name
        metric_name := primary_metric
        sample_size_a := control_data.total
        sample_size_b := treatment_data.total
        mean_a := control_data.mean
        mean_b := treatment_data.mean
        std_dev_a := some control_data.std_dev
        std_dev_b := some treatment_data.std_dev
        effect_size := engine_result.effect_size
        p_value := engine_result.p_value
        bayes_probability := engine_result.bayes_probability
        confidence_interval_lower := engine_result.ci_low
        confidence_interval_upper := engine_result.ci_high
        is_significant := engine_result.p_value.lt (Fp.finite (1 / 20))
        test_type := engine_result.test_type
        analysis_engine := engine }
  | MetricType.Count =>
      let engine_result := analyze_continuous fsqrtQ ncdf tcdf tinv engine
        control_data.mean control_data.std_dev control_data.total
        treatment_data.mean treatment_data.std_dev treatment_data.total
      { variant_a := control_name
        variant_b := variant_name
        metric_name := primary_metric
        sample_size_a := control_data.total
        sample_size_b := treatment_data.total
        mean_a := control_data.mean
        mean_b := treatment_data.mean
        std_dev_a := some control_data.std_dev
        std_dev_b := some treatment_data.std_dev
        effect_size := engine_result.effect_size
        p_value := engine_result.p_value
        bayes_probability := engine_result.bayes_probability
        confidence_interval_lower := engine_result.ci_low
        confidence_interval_upper := engine_result.ci_high
        is_significant := engine_result.p_value.lt (Fp.finite (1 / 20))
        test_type := engine_result.test_type
        analysis_engine := engine }

/-- `models::CupedAdjustedResult` (identifier fields elided). -/
structure CupedAdjustedResult where
  variant_a : String
  variant_b : String
  metric_name : String
  theta : ℚ
  adjusted_mean_a : ℚ
  adjusted_mean_b : ℚ
  adjusted_effect_size : Fp
  adjusted_p_value : Fp
  adjusted_ci_lower : Fp
  adjusted_ci_upper : Fp
  variance_reduction_percent : ℚ
  original_variance_a : ℚ
  original_variance_b : ℚ
  adjusted_variance_a : ℚ
  adjusted_variance_b : ℚ
  is_significant : Bool
  n_matched_users_a : ℕ
  n_matched_users_b : ℕ
deriving DecidableEq

/-- Per-treatment tail of `CupedService::run_cuped_analysis`
(`cuped_service.rs`): build both calculators from the matched vectors,
run them, feed the adjusted summary statistics to `analyze_continuous`,
and assemble the `CupedAdjustedResult` with
`is_significant = p_value < 0.05`. -/
def cupedPairOk (fsqrtQ : ℚ → ℚ) (ncdf : Fp → Fp) (tcdf tinv : Fp → Fp → Fp)
    (engine : AnalysisEngine) (variant_a variant_b primary_metric : String)
    (calc_a calc_b : CupedCalculator) : CupedAdjustedResult :=
  let adj_a := calc_a.run fsqrtQ
  let adj_b := calc_b.run fsqrtQ
  let engine_result := analyze_continuous fsqrtQ ncdf tcdf tinv engine
    adj_a.adjusted_mean adj_a.adjusted_std_dev adj_a.n_matched_users
    adj_b.adjusted_mean adj_b.adjusted_std_dev adj_b.n_matched_users
  { variant_a := variant_a
    variant_b := variant_b
    metric_name := primary_metric
    theta := (adj_a.theta + adj_b.theta) / 2
    adjusted_mean_a := adj_a.adjusted_mean
    adjusted_mean_b := adj_b.adjusted_mean
    adjusted_effect_size := engine_result.effect_size
    adjusted_p_value := engine_result.p_value
    adjusted_ci_lower := engine_result.ci_low
    adjusted_ci_upper := engine_result.ci_high
    variance_reduction_percent :=
      (adj_a.variance_reduction_percent + adj_b.variance_reduction_percent) / 2
    original_variance_a := adj_a.original_std_dev ^ 2
    original_variance_b := adj_b.original_std_dev ^ 2
    adjusted_variance_a := adj_a.adjusted_std_dev ^ 2
    adjusted_variance_b := adj_b.adjusted_std_dev ^ 2
    is_significant := engine_result.p_value.lt (Fp.finite (1 / 20))
    n_matched_users_a := adj_a.n_matched_users
    n_matched_users_b := adj_b.n_matched_users }

/-- Propagation of the two `CupedCalculator::new` results through `?`
in `run_cuped_analysis`, followed by the success-path record build. -/
def cupedPairResult (fsqrtQ : ℚ → ℚ) (ncdf : Fp → Fp) (tcdf tinv : Fp → Fp → Fp)
    (engine : AnalysisEngine) (variant_a variant_b primary_metric : String)
    (matched_pre_a matched_post_a matched_pre_b matched_post_b : List ℚ) :
    Except CupedError CupedAdjustedResult := do
  let calc_a ← CupedCalculator.new matched_pre_a matched_post_a
  let calc_b ← CupedCalculator.new matched_pre_b matched_post_b
  Except.ok (cupedPairOk fsqrtQ ncdf tcdf tinv engine variant_a variant_b
    primary_metric calc_a calc_b)

/-- Health-check direction (`models::HealthCheckDirection`). -/
inductive HealthCheckDirection where
  | AtLeast : HealthCheckDirection
  | AtMost : HealthCheckDirection
  | Between : HealthCheckDirection
deriving DecidableEq

/-- `models::HealthCheck`: a configured guardrail bound. -/
structure HealthCheck where
  metric_name : String
  direction : HealthCheckDirection
  min : Option ℚ
  max : Option ℚ
deriving DecidableEq

/-- `models::HealthCheckResult`. -/
structure HealthCheckResult where
  metric_name : String
  direction : HealthCheckDirection
  min : Option ℚ
  max : Option ℚ
  current_value : Option ℚ
  is_passing : Bool
deriving DecidableEq

/-- The `is_passing` match of `ExperimentService::evaluate_health_checks`
(`experiment_service.rs`, lines 527-553), verbatim: missing current value
fails; each bound is tested through `Option::map(..).unwrap_or(false)`. -/
def healthCheckPassing (direction : HealthCheckDirection)
    (minBound maxBound : Option ℚ) (current : Option ℚ) : Bool :=
  match direction, current with
  | _, none => false
  | HealthCheckDirection.AtLeast, some v =>
      (minBound.map (fun m => decide (m ≤ v))).getD false
  | HealthCheckDirection.AtMost, some v =>
      (maxBound.map (fun m => decide (v ≤ m))).getD false
  | HealthCheckDirection.Between, some v =>
      ((minBound.map (fun m => decide (m ≤ v))).getD false) &&
        ((maxBound.map (fun m => decide (v ≤ m))).getD false)

/-- One iteration of `evaluate_health_checks`: the current aggregate value
(fetched from the analytics store, `None` when the query fails or returns
no rows) is supplied as an argument. -/
def evaluateHealthCheck (check : HealthCheck) (current_value : Option ℚ) :
    HealthCheckResult :=
  { metric_name := check.metric_name
    direction := check.direction
    min := check.min
    max := check.max
    current_value := current_value
    is_passing := healthCheckPassing check.direction check.min check.max current_value }

/-- Summary part of `AnalyticsSrmResponse` (`analytics_service.rs`),
identifier fields elided. -/
structure AnalyticsSrmSummary where
  p_value : ℚ
  allocation_drift : ℚ
deriving DecidableEq

/-- Per-variant point of the SRM response. -/
structure AnalyticsSrmVariant where
  variant : String
  expected : ℚ
  observed : ℚ
deriving DecidableEq

/-- SRM response (`analytics_service.rs`). -/
structure AnalyticsSrmResponse where
  variants : List AnalyticsSrmVariant
  summary : AnalyticsSrmSummary
deriving DecidableEq

/-- `HashMap::insert` on an association list: overwrite the key if present. -/
def hmInsert {α : Type} (m : List (String × α)) (k : String) (v : α) :
    List (String × α) :=
  (m.filter (fun p => p.1 ≠ k)) ++ [(k, v)]

/-- Build a `HashMap` from rows by repeated insertion. -/
def hmOfList {α : Type} (rows : List (String × α)) : List (String × α) :=
  rows.foldl (fun m r => hmInsert m r.1 r.2) []

/-- `HashMap::get`. -/
def hmGet {α : Type} (m : List (String × α)) (k : String) : Option α :=
  (m.find? (fun p => p.1 == k)).map (fun p => p.2)

/-- Total of the observed exposure counts, as summed by `build_srm`
(`observed_map.values().copied().sum()`). -/
def observedTotal (observedRows : List (String × ℕ)) : ℕ :=
  ((hmOfList observedRows).map (fun p => p.2)).sum

/-- Pure core of `AnalyticsService::build_srm` (`analytics_service.rs`,
from the construction of `expected_map` onward): chi-square
goodness-of-fit of observed exposure counts against expected allocations.
`chiCdf df x` is `ChiSquared::new(df).cdf(x)`.  The zero-total early
return reports `p_value = 1` and `allocation_drift = 0`. -/
def srmCore (chiCdf : ℚ → ℚ → ℚ) (variants : List Variant)
    (observedRows : List (String × ℕ)) : AnalyticsSrmResponse :=
  let expected_map := variants.foldl (fun m v => hmInsert m v.name v.allocation_percent) []
  let observed_map := hmOfList observedRows
  let total_observed : ℕ := (observed_map.map (fun p => p.2)).sum
  if total_observed = 0 then
    { variants := [], summary := { p_value := 1, allocation_drift := 0 } }
  else
    let step := fun (acc : ℚ × ℚ × List AnalyticsSrmVariant) (variant : Variant) =>
      let expected_pct := (hmGet expected_map variant.name).getD 0
      let expected := expected_pct / 100 * (total_observed : ℚ)
      let observed_count := (hmGet observed_map variant.name).getD 0
      let observed : ℚ := (observed_count : ℚ)
      let chi_square :=
        if 0 < expected then acc.1 + (observed - expected) ^ 2 / expected else acc.1
      let observed_pct := observed / (total_observed : ℚ) * 100
      let drift := |observed_pct - expected_pct|
      let max_drift := if acc.2.1 < drift then drift else acc.2.1
      (chi_square, max_drift,
        acc.2.2 ++ [{ variant := variant.name
                      expected := expected_pct
                      observed := observed_pct }])
    let r := variants.foldl step (0, 0, [])
    let df : ℚ := ((r.2.2.length - 1 : ℕ) : ℚ)
    let p_value := if 0 < df then 1 - chiCdf df r.1 else 1
    { variants := r.2.2
      summary := { p_value := p_value, allocation_drift := r.2.1 } }

/-! Helper lemmas about the `Fp` model and list statistics. -/

namespace Fp

@[simp] theorem add_finite (a b : ℚ) : finite a + finite b = finite (a + b) := rfl

@[simp] theorem sub_finite (a b : ℚ) : finite a - finite b = finite (a - b) := by
  show add (finite a) (neg (finite b)) = finite (a - b)
  simp [add, neg, sub_eq_add_neg]

@[simp] theorem mul_finite (a b : ℚ) : finite a * finite b = finite (a * b) := rfl

@[simp] theorem isFinite_finite (a : ℚ) : (finite a).isFinite = true := rfl

@[simp] theorem isFinite_nan : (nan).isFinite = false := rfl

@[simp] theorem isFinite_inf : (inf).isFinite = false := rfl

@[simp] theorem isFinite_neginf : (neginf).isFinite = false := rfl

theorem isFinite_iff {x : Fp} : x.isFinite = true ↔ ∃ q, x = finite q := by
  cases x <;> simp [isFinite]

theorem div_finite_of_ne {a b : ℚ} (hb : b ≠ 0) :
    finite a / finite b = finite (a / b) := by
  show div (finite a) (finite b) = finite (a / b)
  simp [div, hb]

@[simp] theorem le_finite (a b : ℚ) : le (finite a) (finite b) = decide (a ≤ b) := rfl

@[simp] theorem lt_finite (a b : ℚ) : lt (finite a) (finite b) = decide (a < b) := rfl

@[simp] theorem fabs_finite (a : ℚ) : fabs (finite a) = finite |a| := rfl

@[simp] theorem fmax_finite (a b : ℚ) :
    fmax (finite a) (finite b) = finite (max a b) := rfl

@[simp] theorem fmax_nan_left (b : Fp) : fmax nan b = b := by
  cases b <;> rfl

end Fp

namespace Fp

@[simp] theorem ofNat_eq (n : ℕ) : Fp.ofNat n = Fp.finite (n : ℚ) := rfl

@[simp] theorem isFinite_lit (n : ℕ) : (OfNat.ofNat n : Fp).isFinite = true := rfl

@[simp] theorem inf_add_finite (b : ℚ) : Fp.inf + Fp.finite b = Fp.inf := rfl

@[simp] theorem finite_sub_inf (a : ℚ) : Fp.finite a - Fp.inf = Fp.neginf := rfl

@[simp] theorem finite_add_inf (a : ℚ) : Fp.finite a + Fp.inf = Fp.inf := rfl

@[simp] theorem sqrt_inf (f : ℚ → ℚ) : Fp.sqrt f Fp.inf = Fp.inf := rfl

@[simp] theorem fmax_inf_left (x : Fp) : Fp.fmax Fp.inf x = Fp.inf := by
  cases x <;> rfl

@[simp] theorem finite_div_inf (a : ℚ) : Fp.finite a / Fp.inf = Fp.finite 0 := rfl

theorem mul_finite_inf_pos {a : ℚ} (h : 0 < a) : Fp.finite a * Fp.inf = Fp.inf := by
  show Fp.mul (Fp.finite a) Fp.inf = Fp.inf
  simp [Fp.mul, h]

theorem div_finite_zero_pos {a : ℚ} (h : 0 < a) : Fp.finite a / Fp.finite 0 = Fp.inf := by
  show Fp.div (Fp.finite a) (Fp.finite 0) = Fp.inf
  simp [Fp.div, h]

theorem isFinite_add {a b : Fp} (ha : a.isFinite = true) (hb : b.isFinite = true) :
    (a + b).isFinite = true := by
  obtain ⟨x, rfl⟩ := isFinite_iff.mp ha
  obtain ⟨y, rfl⟩ := isFinite_iff.mp hb
  simp

theorem isFinite_sub {a b : Fp} (ha : a.isFinite = true) (hb : b.isFinite = true) :
    (a - b).isFinite = true := by
  obtain ⟨x, rfl⟩ := isFinite_iff.mp ha
  obtain ⟨y, rfl⟩ := isFinite_iff.mp hb
  simp

theorem isFinite_mul {a b : Fp} (ha : a.isFinite = true) (hb : b.isFinite = true) :
    (a * b).isFinite = true := by
  obtain ⟨x, rfl⟩ := isFinite_iff.mp ha
  obtain ⟨y, rfl⟩ := isFinite_iff.mp hb
  simp

theorem isFinite_div {a : Fp} {b : ℚ} (ha : a.isFinite = true) (hb : b ≠ 0) :
    (a / Fp.finite b).isFinite = true := by
  obtain ⟨x, rfl⟩ := isFinite_iff.mp ha
  rw [div_finite_of_ne hb]
  simp

theorem isFinite_fabs {a : Fp} (ha : a.isFinite = true) : a.fabs.isFinite = true := by
  obtain ⟨x, rfl⟩ := isFinite_iff.mp ha
  simp

theorem le_false_pos {s : ℚ} (h : Fp.le (Fp.finite s) 0 = false) : 0 < s := by
  simp only [show (0 : Fp) = Fp.finite 0 from rfl, le_finite, decide_eq_false_iff_not,
    not_le] at h
  exact h

end Fp

theorem qvariance_nonneg (xs : List ℚ) : 0 ≤ qvariance xs := by
  match xs with
  | [] => simp [qvariance, qmean]
  | [a] => simp [qvariance, qmean]
  | a :: b :: tl =>
    apply div_nonneg
    · apply List.sum_nonneg
      intro x hx
      simp only [List.mem_map] at hx
      obtain ⟨y, _, rfl⟩ := hx
      positivity
    · have : (2 : ℚ) ≤ ((a :: b :: tl).length : ℚ) := by
        simp only [List.length_cons]
        push_cast
        linarith [Nat.cast_nonneg (α := ℚ) tl.length]
      linarith

theorem bucketWalk_mem (hashPercent : ℚ) :
    ∀ (vs : List Variant) (c : ℚ) (nm : String),
      bucketWalk hashPercent vs c = some nm → nm ∈ vs.map Variant.name := by
  intro vs
  induction vs with
  | nil => intro c nm h; simp [bucketWalk] at h
  | cons v rest ih =>
    intro c nm h
    unfold bucketWalk at h
    by_cases hlt : hashPercent < c + v.allocation_percent
    · rw [if_pos hlt] at h
      simp only [Option.some.injEq] at h
      simp [← h]
    · rw [if_neg hlt] at h
      simp only [List.map_cons, List.mem_cons]
      exact Or.inr (ih _ nm h)

theorem fmax_sqrt_floor (f : ℚ → ℚ) (x : Fp) (hx : x.isFinite = true)
    (e : ℚ) (he : 0 < e) :
    ∃ s, (Fp.sqrt f x).fmax (Fp.finite e) = Fp.finite s ∧ 0 < s := by
  obtain ⟨q, rfl⟩ := Fp.isFinite_iff.mp hx
  simp only [Fp.sqrt]
  by_cases hq : q < 0
  · rw [if_pos hq]
    exact ⟨e, by simp, he⟩
  · rw [if_neg hq]
    exact ⟨max (f q) e, by simp, lt_of_lt_of_le he (le_max_right _ _)⟩

theorem z_tail_finite (ncdf : Fp → Fp)
    (hncdf : ∀ x, x.isFinite = true → (ncdf x).isFinite = true)
    (eff se : Fp) (heff : eff.isFinite = true) :
    finiteTriple (if !se.isFinite || se.le 0 then (eff, (1 : Fp), eff, eff)
      else (eff, 2 * (1 - ncdf ((eff / se).fabs)),
        eff - Fp.finite (49 / 25) * se, eff + Fp.finite (49 / 25) * se)) := by
  split
  · exact ⟨rfl, heff, heff⟩
  · rename_i hguard
    simp only [Bool.or_eq_true, Bool.not_eq_true', not_or, Bool.not_eq_false,
      Bool.not_eq_true] at hguard
    obtain ⟨hfin, hle⟩ := hguard
    obtain ⟨s, rfl⟩ := Fp.isFinite_iff.mp hfin
    have hs : 0 < s := Fp.le_false_pos hle
    refine ⟨?_, ?_, ?_⟩
    · exact Fp.isFinite_mul (a := 2) rfl
        (Fp.isFinite_sub (a := 1) rfl
          (hncdf _ (Fp.isFinite_fabs (Fp.isFinite_div heff (ne_of_gt hs)))))
    · exact Fp.isFinite_sub heff (Fp.isFinite_mul rfl rfl)
    · exact Fp.isFinite_add heff (Fp.isFinite_mul rfl rfl)

theorem z_test_proportions_finite (fsqrtQ : ℚ → ℚ) (ncdf : Fp → Fp)
    (hncdf : ∀ x, x.isFinite = true → (ncdf x).isFinite = true)
    (successes_a total_a successes_b total_b : ℕ) :
    finiteTriple (z_test_proportions fsqrtQ ncdf successes_a total_a
      successes_b total_b) := by
  by_cases h0 : total_a = 0 ∨ total_b = 0
  · simp only [z_test_proportions, if_pos h0]
    exact ⟨rfl, rfl, rfl⟩
  · push_neg at h0
    have hta : ((total_a : ℚ)) ≠ 0 := Nat.cast_ne_zero.mpr h0.1
    have htb : ((total_b : ℚ)) ≠ 0 := Nat.cast_ne_zero.mpr h0.2
    have heff : ((Fp.ofNat successes_a / Fp.ofNat total_a)
        - (Fp.ofNat successes_b / Fp.ofNat total_b)).isFinite = true :=
      Fp.isFinite_sub (Fp.isFinite_div rfl hta) (Fp.isFinite_div rfl htb)
    simp only [z_test_proportions]
    rw [if_neg (not_or.mpr ⟨h0.1, h0.2⟩)]
    exact z_tail_finite ncdf hncdf _ _ heff

theorem t_tail_finite (tcdf tinv : Fp → Fp → Fp)
    (htcdf : ∀ d x, Fp.lt 0 d = true → x.isFinite = true → (tcdf d x).isFinite = true)
    (htinv : ∀ d x, Fp.lt 0 d = true → x.isFinite = true → (tinv d x).isFinite = true)
    (eff num se df : Fp) (heff : eff.isFinite = true) (hnum : num.isFinite = true) :
    finiteTriple (if !se.isFinite || se.le 0 then (eff, (1 : Fp), eff, eff)
      else if !df.isFinite || df.le 0 then (eff, (1 : Fp), eff, eff)
      else (eff, 2 * (1 - tcdf df ((num / se).fabs)),
        eff - tinv df (Fp.finite (39 / 40)) * se,
        eff + tinv df (Fp.finite (39 / 40)) * se)) := by
  split
  · exact ⟨rfl, heff, heff⟩
  · rename_i hguard1
    split
    · exact ⟨rfl, heff, heff⟩
    · rename_i hguard2
      simp only [Bool.or_eq_true, Bool.not_eq_true', not_or, Bool.not_eq_false,
        Bool.not_eq_true] at hguard1 hguard2
      obtain ⟨hsfin, hsle⟩ := hguard1
      obtain ⟨hdfin, hdle⟩ := hguard2
      obtain ⟨s, rfl⟩ := Fp.isFinite_iff.mp hsfin
      obtain ⟨d, rfl⟩ := Fp.isFinite_iff.mp hdfin
      have hs : 0 < s := Fp.le_false_pos hsle
      have hd : 0 < d := Fp.le_false_pos hdle
      have hdlt : Fp.lt 0 (Fp.finite d) = true := by
        show Fp.lt (Fp.finite 0) (Fp.finite d) = true
        simp [hd]
      refine ⟨?_, ?_, ?_⟩
      · exact Fp.isFinite_mul (a := 2) rfl
          (Fp.isFinite_sub (a := 1) rfl
            (htcdf _ _ hdlt (Fp.isFinite_fabs (Fp.isFinite_div hnum (ne_of_gt hs)))))
      · exact Fp.isFinite_sub heff (Fp.isFinite_mul (htinv _ _ hdlt rfl) rfl)
      · exact Fp.isFinite_add heff (Fp.isFinite_mul (htinv _ _ hdlt rfl) rfl)

theorem t_test_summary_finite (fsqrtQ : ℚ → ℚ) (tcdf tinv : Fp → Fp → Fp)
    (htcdf : ∀ d x, Fp.lt 0 d = true → x.isFinite = true → (tcdf d x).isFinite = true)
    (htinv : ∀ d x, Fp.lt 0 d = true → x.isFinite = true → (tinv d x).isFinite = true)
    (mean_a std_a : ℚ) (n_a : ℕ) (mean_b std_b : ℚ) (n_b : ℕ) :
    finiteTriple (t_test_summary fsqrtQ tcdf tinv mean_a std_a n_a mean_b std_b n_b) := by
  by_cases h0 : n_a < 2 ∨ n_b < 2
  · simp only [t_test_summary, if_pos h0]
    exact ⟨rfl, rfl, rfl⟩
  · simp only [t_test_summary]
    rw [if_neg h0]
    exact t_tail_finite tcdf tinv htcdf htinv _ _ _ _ rfl rfl

theorem bayes_tail_finite (fsqrtQ : ℚ → ℚ) (ncdf : Fp → Fp)
    (hncdf : ∀ x, x.isFinite = true → (ncdf x).isFinite = true)
    (dm dv : Fp) (hdm : dm.isFinite = true) (hdv : dv.isFinite = true) :
    finiteTriple (dm,
      ncdf (dm / (Fp.sqrt fsqrtQ dv).fmax (Fp.finite (1 / 1000000000))),
      dm - Fp.finite (49 / 25) * ((Fp.sqrt fsqrtQ dv).fmax (Fp.finite (1 / 1000000000))),
      dm + Fp.finite (49 / 25) * ((Fp.sqrt fsqrtQ dv).fmax (Fp.finite (1 / 1000000000)))) := by
  obtain ⟨s, hse, hs⟩ := fmax_sqrt_floor fsqrtQ dv hdv (1 / 1000000000) (by norm_num)
  rw [hse]
  exact ⟨hncdf _ (Fp.isFinite_div hdm (ne_of_gt hs)),
    Fp.isFinite_sub hdm (Fp.isFinite_mul rfl rfl),
    Fp.isFinite_add hdm (Fp.isFinite_mul rfl rfl)⟩

theorem bayes_proportion_finite (fsqrtQ : ℚ → ℚ) (ncdf : Fp → Fp)
    (hncdf : ∀ x, x.isFinite = true → (ncdf x).isFinite = true)
    (successes_a total_a successes_b total_b : ℕ) :
    finiteTriple (bayes_proportion fsqrtQ ncdf successes_a total_a
      successes_b total_b) := by
  simp only [bayes_proportion]
  exact bayes_tail_finite fsqrtQ ncdf hncdf _ _
    (Fp.isFinite_sub (Fp.isFinite_div rfl (by positivity))
      (Fp.isFinite_div rfl (by positivity)))
    (Fp.isFinite_add
      (Fp.isFinite_div (Fp.isFinite_mul rfl rfl) (by positivity))
      (Fp.isFinite_div (Fp.isFinite_mul rfl rfl) (by positivity)))

theorem bayes_continuous_finite (fsqrtQ : ℚ → ℚ) (ncdf : Fp → Fp)
    (hncdf : ∀ x, x.isFinite = true → (ncdf x).isFinite = true)
    (mean_a std_a : ℚ) (n_a : ℕ) (mean_b std_b : ℚ) (n_b : ℕ)
    (hna : 1 ≤ n_a) (hnb : 1 ≤ n_b) :
    finiteTriple (bayes_continuous fsqrtQ ncdf mean_a std_a n_a mean_b std_b n_b) := by
  simp only [bayes_continuous]
  exact bayes_tail_finite fsqrtQ ncdf hncdf _ _
    (Fp.isFinite_sub rfl rfl)
    (Fp.isFinite_add
      (Fp.isFinite_div (Fp.isFinite_mul rfl rfl) (Nat.cast_ne_zero.mpr (by omega)))
      (Fp.isFinite_div (Fp.isFinite_mul rfl rfl) (Nat.cast_ne_zero.mpr (by omega))))

/-! Claim theorems. -/

/-- Claim C1: variant assignment is deterministic.  `select_variant`,
`hash_user_to_variant` and `hash_user_to_variant_with_salt` are pure
functions of their arguments (the 64-bit digests `hash2`/`hash3` model
`DefaultHasher`, which uses fixed keys and no external randomness): two
calls with identical arguments produce identical variants. -/
theorem select_variant_deterministic
    (hash2 : String → String → ℕ) (hash3 : String → String → String → ℕ)
    (uid1 uid2 eid1 eid2 : String) (vs1 vs2 : List Variant)
    (m1 m2 : SamplingMethod) (seed1 seed2 : ℕ)
    (attrs1 attrs2 : Option JsonValue) (salt1 salt2 : String)
    (huid : uid1 = uid2) (heid : eid1 = eid2) (hvs : vs1 = vs2) (hm : m1 = m2)
    (hseed : seed1 = seed2) (hattrs : attrs1 = attrs2) (hsalt : salt1 = salt2) :
    select_variant hash2 hash3 uid1 eid1 vs1 m1 seed1 attrs1
        = select_variant hash2 hash3 uid2 eid2 vs2 m2 seed2 attrs2
    ∧ hash_user_to_variant hash2 uid1 eid1 vs1
        = hash_user_to_variant hash2 uid2 eid2 vs2
    ∧ hash_user_to_variant_with_salt hash3 uid1 eid1 vs1 salt1
        = hash_user_to_variant_with_salt hash3 uid2 eid2 vs2 salt2 := by
  subst huid heid hvs hm hseed hattrs hsalt
  exact ⟨rfl, rfl, rfl⟩

/-- Witness for C1 at concrete inputs. -/
theorem select_variant_deterministic_witness :
    select_variant (fun _ _ => 7) (fun _ _ _ => 7) "user-1" "exp-1"
        [{ name := "control", allocation_percent := 50, is_control := true },
         { name := "treatment", allocation_percent := 50, is_control := false }]
        SamplingMethod.Hash 0 none
      = select_variant (fun _ _ => 7) (fun _ _ _ => 7) "user-1" "exp-1"
        [{ name := "control", allocation_percent := 50, is_control := true },
         { name := "treatment", allocation_percent := 50, is_control := false }]
        SamplingMethod.Hash 0 none :=
  (select_variant_deterministic (fun _ _ => 7) (fun _ _ _ => 7)
    "user-1" "user-1" "exp-1" "exp-1" _ _ SamplingMethod.Hash SamplingMethod.Hash
    0 0 none none "s" "s" rfl rfl rfl rfl rfl rfl rfl).1

/-- Claim C10: for a non-empty variant list both hash functions return the
name of one of the supplied variants (first cumulative-allocation match,
else the first variant); the empty-list `variants[0]` panic is modelled by
`none`, returned exactly when the list is empty. -/
theorem hash_variant_membership
    (hash2 : String → String → ℕ) (hash3 : String → String → String → ℕ)
    (uid eid salt : String) (vs : List Variant) :
    (hash_user_to_variant hash2 uid eid vs = none ↔ vs = [])
    ∧ (∀ nm, hash_user_to_variant hash2 uid eid vs = some nm →
        nm ∈ vs.map Variant.name)
    ∧ (hash_user_to_variant_with_salt hash3 uid eid vs salt = none ↔ vs = [])
    ∧ (∀ nm, hash_user_to_variant_with_salt hash3 uid eid vs salt = some nm →
        nm ∈ vs.map Variant.name) := by
  have main : ∀ (hp : ℚ),
      ((match bucketWalk hp vs 0 with
        | some nm => some nm
        | none => vs.head?.map Variant.name) = none ↔ vs = [])
      ∧ (∀ nm, (match bucketWalk hp vs 0 with
          | some nm => some nm
          | none => vs.head?.map Variant.name) = some nm →
            nm ∈ vs.map Variant.name) := by
    intro hp
    cases hw : bucketWalk hp vs 0 with
    | some nm =>
      constructor
      · constructor
        · intro h; exact absurd h (by simp)
        · intro h; subst h; simp [bucketWalk] at hw
      · intro nm2 h
        simp only [Option.some.injEq] at h
        subst h
        exact bucketWalk_mem hp vs 0 nm hw
    | none =>
      constructor
      · cases vs with
        | nil => simp
        | cons v rest => simp
      · intro nm h
        cases vs with
        | nil => simp at h
        | cons v rest =>
          have hv : v.name = nm := by simpa using h
          simp [← hv]
  refine ⟨(main _).1, (main _).2, (main _).1, (main _).2⟩

/-- Witness for C10 at concrete inputs. -/
theorem hash_variant_membership_witness :
    "a" ∈ ([{ name := "a", allocation_percent := 100, is_control := true }] :
      List Variant).map Variant.name :=
  (hash_variant_membership (fun _ _ => 3) (fun _ _ _ => 3) "u" "e" "s"
    [{ name := "a", allocation_percent := 100, is_control := true }]).2.1 "a"
    (by norm_num [hash_user_to_variant, bucketWalk])

/-- Claim C9: guardrail health-check evaluation fails closed: a missing
current value is never passing; `AtLeast` passes exactly on `min ≤ value`
and fails when `min` is unset; `AtMost` passes exactly on `value ≤ max`;
`Between` passes exactly when both bounds are set and satisfied. -/
theorem health_check_fail_closed :
    (∀ (d : HealthCheckDirection) (minBound maxBound : Option ℚ),
      healthCheckPassing d minBound maxBound none = false)
    ∧ (∀ (maxBound : Option ℚ) (v m : ℚ),
        healthCheckPassing HealthCheckDirection.AtLeast (some m) maxBound (some v)
          = decide (m ≤ v))
    ∧ (∀ (maxBound : Option ℚ) (v : ℚ),
        healthCheckPassing HealthCheckDirection.AtLeast none maxBound (some v) = false)
    ∧ (∀ (minBound : Option ℚ) (v m : ℚ),
        healthCheckPassing HealthCheckDirection.AtMost minBound (some m) (some v)
          = decide (v ≤ m))
    ∧ (∀ (minBound maxBound : Option ℚ) (v : ℚ),
        healthCheckPassing HealthCheckDirection.Between minBound maxBound (some v) = true
          ↔ ∃ a b, minBound = some a ∧ maxBound = some b ∧ a ≤ v ∧ v ≤ b) := by
  refine ⟨?_, ?_, ?_, ?_, ?_⟩
  · intro d minBound maxBound; cases d <;> rfl
  · intro maxBound v m; rfl
  · intro maxBound v; rfl
  · intro minBound v m; rfl
  · intro minBound maxBound v
    cases minBound with
    | none => simp [healthCheckPassing]
    | some a =>
      cases maxBound with
      | none => simp [healthCheckPassing]
      | some b => simp [healthCheckPassing]

/-- Witness for C9 at concrete inputs. -/
theorem health_check_fail_closed_witness :
    healthCheckPassing HealthCheckDirection.AtLeast (some 1) none (some 2)
      = decide ((1 : ℚ) ≤ 2) :=
  health_check_fail_closed.2.1 none 2 1

/-- Claim C7: the targeting evaluator fails closed.  An unparseable rule
(`none`) evaluates false; an empty condition list evaluates true; a
condition on an attribute absent from the attribute map is false under
every operator; a `Regex` condition with an invalid pattern (modelled by
`compileRegex` returning `none`) is false, and evaluation is a total
function so it cannot panic; conditions combine by AND (`List.all`). -/
theorem targeting_fails_closed (compileRegex : String → Option (String → Bool)) :
    (∀ attrs, TargetingEngine.evaluate compileRegex none attrs = false)
    ∧ (∀ version attrs,
        TargetingEngine.evaluate compileRegex
          (some { version := version, conditions := [] }) attrs = true)
    ∧ (∀ (cond : Condition) (attrs : JsonValue), attrs.get cond.attr = none →
        TargetingEngine.evaluate_condition compileRegex cond attrs = false)
    ∧ (∀ (a pat : String) (attrs : JsonValue), compileRegex pat = none →
        TargetingEngine.evaluate_condition compileRegex
          { attr := a, operator := Operator.Regex, value := JsonValue.str pat }
          attrs = false)
    ∧ (∀ (rule : TargetingRule) attrs,
        TargetingEngine.evaluate compileRegex (some rule) attrs
          = rule.conditions.all
              (fun c => TargetingEngine.evaluate_condition compileRegex c attrs)) := by
  refine ⟨?_, ?_, ?_, ?_, ?_⟩
  · intro attrs; rfl
  · intro version attrs; rfl
  · intro cond attrs h
    unfold TargetingEngine.evaluate_condition
    rw [h]
  · intro a pat attrs h
    cases hget : attrs.get a with
    | none => simp [TargetingEngine.evaluate_condition, hget]
    | some av =>
      cases av <;>
        simp [TargetingEngine.evaluate_condition, hget, JsonValue.asStr, h]
  · intro rule attrs
    obtain ⟨version, conds⟩ := rule
    cases conds with
    | nil => rfl
    | cons c cs => rfl

/-- Witness for C7 at concrete inputs. -/
theorem targeting_fails_closed_witness :
    TargetingEngine.evaluate_condition (fun _ => none)
      { attr := "plan", operator := Operator.NotEquals, value := JsonValue.str "pro" }
      (JsonValue.obj []) = false :=
  (targeting_fails_closed (fun _ => none)).2.2.1
    { attr := "plan", operator := Operator.NotEquals, value := JsonValue.str "pro" }
    (JsonValue.obj []) rfl

/-- Claim C8: when the total observed exposure count across all variants
is zero, the SRM computation takes the early-return branch and reports
`p_value` exactly 1 and `allocation_drift` exactly 0. -/
theorem srm_zero_total (chiCdf : ℚ → ℚ → ℚ) (variants : List Variant)
    (observedRows : List (String × ℕ)) (h : observedTotal observedRows = 0) :
    (srmCore chiCdf variants observedRows).summary.p_value = 1
    ∧ (srmCore chiCdf variants observedRows).summary.allocation_drift = 0 := by
  have h0 : ((hmOfList observedRows).map (fun p => p.2)).sum = 0 := h
  simp [srmCore, h0]

theorem sum_zip_adjust (t m : ℚ) :
    ∀ (post pre : List ℚ), post.length = pre.length →
      ((post.zip pre).map (fun p => p.1 - t * (p.2 - m))).sum
        = post.sum - t * (pre.sum - (pre.length : ℚ) * m) := by
  intro post
  induction post with
  | nil =>
    intro pre h
    cases pre with
    | nil => simp
    | cons x xs => simp at h
  | cons y ys ih =>
    intro pre h
    cases pre with
    | nil => simp at h
    | cons x xs =>
      simp only [List.zip_cons_cons, List.map_cons, List.sum_cons, List.length_cons]
      rw [ih xs (by simpa using h)]
      push_cast
      ring

theorem calculate_theta_eq (c : CupedCalculator) :
    c.calculate_theta =
      if qvariance c.pre_values < 1 / 1000000000000 then 0
      else (((c.pre_values.zip c.post_values).map
          (fun p => (p.1 - qmean c.pre_values) * (p.2 - qmean c.post_values))).sum /
            ((c.pre_values.length : ℚ) - 1)) / qvariance c.pre_values := rfl

theorem compute_variance_reduction_eq (c : CupedCalculator) :
    c.compute_variance_reduction =
      if qvariance c.post_values < 1 / 1000000000000 then 0
      else max ((1 - qvariance c.adjust_metrics / qvariance c.post_values) * 100) 0 := rfl

theorem adjust_metrics_eq (c : CupedCalculator) :
    c.adjust_metrics = (c.post_values.zip c.pre_values).map
      (fun p => p.1 - c.calculate_theta * (p.2 - qmean c.pre_values)) := rfl

theorem adjust_metrics_length (c : CupedCalculator)
    (hlen : c.pre_values.length = c.post_values.length) :
    c.adjust_metrics.length = c.post_values.length := by
  rw [adjust_metrics_eq]
  simp [hlen]

theorem cuped_adjust_mean (c : CupedCalculator)
    (hlen : c.pre_values.length = c.post_values.length)
    (hne : c.pre_values ≠ []) :
    qmean c.adjust_metrics = qmean c.post_values := by
  have hn : (c.pre_values.length : ℚ) ≠ 0 := by
    have := List.length_pos.mpr hne
    positivity
  have hsum : c.adjust_metrics.sum = c.post_values.sum := by
    rw [adjust_metrics_eq]
    rw [sum_zip_adjust _ _ _ _ hlen.symm]
    have hc : (c.pre_values.length : ℚ) * qmean c.pre_values = c.pre_values.sum := by
      unfold qmean
      field_simp
    rw [hc]
    ring
  unfold qmean
  rw [adjust_metrics_length c hlen, hsum]

theorem adjust_eq_post (c : CupedCalculator) (htheta : c.calculate_theta = 0)
    (hlen : c.pre_values.length = c.post_values.length) :
    c.adjust_metrics = c.post_values := by
  rw [adjust_metrics_eq, htheta]
  have hf : (fun p : ℚ × ℚ => p.1 - 0 * (p.2 - qmean c.pre_values))
      = fun p : ℚ × ℚ => p.1 := by
    funext p
    ring
  rw [hf]
  exact List.map_fst_zip _ _ (le_of_eq hlen.symm)

/-- Claim C4: for every valid CUPED input (equal-length vectors of at
least the minimum 100 matched users) the mean of the adjusted values
returned by `adjust_metrics` equals the mean of the original post values
within 1e-9; in the exact-rational model the difference is exactly 0. -/
theorem cuped_mean_preserved (c : CupedCalculator)
    (hlen : c.pre_values.length = c.post_values.length)
    (hmin : MIN_CUPED_SAMPLE_SIZE ≤ c.pre_values.length) :
    |qmean c.adjust_metrics - qmean c.post_values| ≤ 1 / 1000000000 := by
  have hne : c.pre_values ≠ [] := by
    intro h
    rw [h] at hmin
    simp [MIN_CUPED_SAMPLE_SIZE] at hmin
  rw [cuped_adjust_mean c hlen hne, sub_self, abs_zero]
  norm_num

/-- Witness for C4 at a concrete valid input (100 matched zero pairs). -/
theorem cuped_mean_preserved_witness :
    |qmean (CupedCalculator.adjust_metrics
        { pre_values := List.replicate 100 (0 : ℚ)
          post_values := List.replicate 100 (0 : ℚ) })
      - qmean (List.replicate 100 (0 : ℚ))| ≤ 1 / 1000000000 :=
  cuped_mean_preserved
    { pre_values := List.replicate 100 (0 : ℚ)
      post_values := List.replicate 100 (0 : ℚ) }
    rfl (by simp [MIN_CUPED_SAMPLE_SIZE])

/-- Counterexample for C5 as stated: with zero matched users (fewer than
the required 100) `CupedCalculator::new` returns the no-data error, not an
insufficient-sample error naming the actual and required counts. -/
theorem cuped_new_empty_counterexample :
    CupedCalculator.new ([] : List ℚ) ([] : List ℚ) = Except.error CupedError.noData
    ∧ CupedCalculator.new ([] : List ℚ) ([] : List ℚ)
        ≠ Except.error (CupedError.insufficientSample 0 MIN_CUPED_SAMPLE_SIZE)
    ∧ ([] : List ℚ).length < MIN_CUPED_SAMPLE_SIZE := by
  have h0 : CupedCalculator.new ([] : List ℚ) ([] : List ℚ)
      = Except.error CupedError.noData := rfl
  refine ⟨h0, ?_, by norm_num [MIN_CUPED_SAMPLE_SIZE]⟩
  rw [h0]
  intro h
  simp at h

/-- Claim C5 (amended): `CupedCalculator::new` returns `Ok` exactly when
the vectors have equal length, are non-empty, and have length at least
100; with an equal-length, non-empty pair of fewer than 100 matched users
it returns the insufficient-sample error carrying the actual count and the
required minimum 100; with an equal-length empty pair it returns the
no-data error. -/
theorem cuped_new_validation (pre post : List ℚ) :
    ((∃ c, CupedCalculator.new pre post = Except.ok c) ↔
      (pre.length = post.length ∧ pre ≠ [] ∧ MIN_CUPED_SAMPLE_SIZE ≤ pre.length))
    ∧ (pre.length = post.length → pre ≠ [] → pre.length < MIN_CUPED_SAMPLE_SIZE →
        CupedCalculator.new pre post
          = Except.error (CupedError.insufficientSample pre.length MIN_CUPED_SAMPLE_SIZE))
    ∧ (pre.length = post.length → pre = [] →
        CupedCalculator.new pre post = Except.error CupedError.noData) := by
  unfold CupedCalculator.new
  by_cases h1 : pre.length = post.length
  · rw [if_neg (by simp [h1])]
    by_cases h2 : pre.isEmpty
    · have hpre : pre = [] := List.isEmpty_iff.mp h2
      rw [if_pos h2]
      refine ⟨?_, ?_, ?_⟩
      · constructor
        · rintro ⟨c, hc⟩
          simp at hc
        · rintro ⟨_, hne, _⟩
          exact absurd hpre hne
      · intro _ hne _
        exact absurd hpre hne
      · intro _ _
        rfl
    · have hne : pre ≠ [] := by
        intro h
        rw [h] at h2
        exact h2 rfl
      rw [if_neg h2]
      by_cases h3 : pre.length < MIN_CUPED_SAMPLE_SIZE
      · rw [if_pos h3]
        refine ⟨?_, ?_, ?_⟩
        · constructor
          · rintro ⟨c, hc⟩
            simp at hc
          · rintro ⟨_, _, hge⟩
            omega
        · intro _ _ _
          rfl
        · intro _ h0
          exact absurd h0 hne
      · rw [if_neg h3]
        refine ⟨?_, ?_, ?_⟩
        · constructor
          · intro _
            exact ⟨h1, hne, not_lt.mp h3⟩
          · intro _
            exact ⟨_, rfl⟩
        · intro _ _ hlt
          exact absurd hlt h3
        · intro _ h0
          exact absurd h0 hne
  · rw [if_pos h1]
    refine ⟨?_, ?_, ?_⟩
    · constructor
      · rintro ⟨c, hc⟩
        simp at hc
      · rintro ⟨h, _, _⟩
        exact absurd h h1
    · intro h _ _
      exact absurd h h1
    · intro h _
      exact absurd h h1

/-- Witness for C5 at a concrete input (one matched pair). -/
theorem cuped_new_validation_witness :
    CupedCalculator.new [(0 : ℚ)] [(0 : ℚ)]
      = Except.error (CupedError.insufficientSample 1 MIN_CUPED_SAMPLE_SIZE) :=
  (cuped_new_validation [(0 : ℚ)] [(0 : ℚ)]).2.1 rfl (by simp)
    (by norm_num [MIN_CUPED_SAMPLE_SIZE])

/-- Claim C6: for every valid CUPED input the variance reduction lies in
[0, 100]; when the pre-experiment covariate has variance below 1e-12,
`calculate_theta` returns exactly 0 and `compute_variance_reduction`
returns exactly 0. -/
theorem variance_reduction_bounds (c : CupedCalculator)
    (hlen : c.pre_values.length = c.post_values.length)
    (hmin : MIN_CUPED_SAMPLE_SIZE ≤ c.pre_values.length) :
    (0 ≤ c.compute_variance_reduction ∧ c.compute_variance_reduction ≤ 100)
    ∧ (qvariance c.pre_values < 1 / 1000000000000 →
        c.calculate_theta = 0 ∧ c.compute_variance_reduction = 0) := by
  constructor
  · rw [compute_variance_reduction_eq]
    by_cases hv : qvariance c.post_values < 1 / 1000000000000
    · rw [if_pos hv]
      norm_num
    · rw [if_neg hv]
      have hvpos : (0 : ℚ) < qvariance c.post_values := by
        have := not_lt.mp hv
        linarith
      constructor
      · exact le_max_right _ _
      · apply max_le
        · have h1 : (0 : ℚ) ≤ qvariance c.adjust_metrics / qvariance c.post_values :=
            div_nonneg (qvariance_nonneg _) (le_of_lt hvpos)
          linarith
        · norm_num
  · intro hpre
    have htheta : c.calculate_theta = 0 := by
      rw [calculate_theta_eq, if_pos hpre]
    refine ⟨htheta, ?_⟩
    have hadj : c.adjust_metrics = c.post_values := adjust_eq_post c htheta hlen
    rw [compute_variance_reduction_eq]
    by_cases hv : qvariance c.post_values < 1 / 1000000000000
    · rw [if_pos hv]
    · rw [if_neg hv]
      have hne0 : qvariance c.post_values ≠ 0 := by
        have := not_lt.mp hv
        intro h0
        rw [h0] at this
        norm_num at this
      rw [hadj, div_self hne0]
      norm_num

/-- Witness for C6 at a concrete valid input with a constant covariate. -/
theorem variance_reduction_bounds_witness :
    CupedCalculator.calculate_theta
        { pre_values := List.replicate 100 (0 : ℚ)
          post_values := List.replicate 100 (0 : ℚ) } = 0
    ∧ CupedCalculator.compute_variance_reduction
        { pre_values := List.replicate 100 (0 : ℚ)
          post_values := List.replicate 100 (0 : ℚ) } = 0 :=
  (variance_reduction_bounds
    { pre_values := List.replicate 100 (0 : ℚ)
      post_values := List.replicate 100 (0 : ℚ) }
    rfl (by simp [MIN_CUPED_SAMPLE_SIZE])).2
    (by norm_num [qvariance, qmean])

/-- Claim C2: the significance flag policy.  Both the experiment-analysis
result and the CUPED result set `is_significant` exactly to
`p_value < 0.05` (IEEE comparison with the literal constant 1/20), and the
result does not depend on the configured `significance_level` of the
hypothesis; the CUPED path (last conjunct) builds every successful result
through the same `cupedPairOk` record constructor. -/
theorem significance_flag_policy (fsqrtQ : ℚ → ℚ) (ncdf : Fp → Fp)
    (tcdf tinv : Fp → Fp → Fp) :
    (∀ engine (hyp : Hypothesis) (cn vn pm : String) (cdata tdata : VariantMetrics),
      (analyzeVariantPair fsqrtQ ncdf tcdf tinv engine hyp cn vn pm cdata tdata).is_significant
        = (analyzeVariantPair fsqrtQ ncdf tcdf tinv engine hyp cn vn pm
            cdata tdata).p_value.lt (Fp.finite (1 / 20)))
    ∧ (∀ engine (hyp : Hypothesis) (alpha1 alpha2 : ℚ) (cn vn pm : String)
        (cdata tdata : VariantMetrics),
        analyzeVariantPair fsqrtQ ncdf tcdf tinv engine
          { hyp with significance_level := alpha1 } cn vn pm cdata tdata
        = analyzeVariantPair fsqrtQ ncdf tcdf tinv engine
          { hyp with significance_level := alpha2 } cn vn pm cdata tdata)
    ∧ (∀ engine (va vb pm : String) (calc_a calc_b : CupedCalculator),
        (cupedPairOk fsqrtQ ncdf tcdf tinv engine va vb pm calc_a calc_b).is_significant
          = (cupedPairOk fsqrtQ ncdf tcdf tinv engine va vb pm
              calc_a calc_b).adjusted_p_value.lt (Fp.finite (1 / 20)))
    ∧ (∀ engine (va vb pm : String) (pa qa pb qb : List ℚ),
        cupedPairResult fsqrtQ ncdf tcdf tinv engine va vb pm pa qa pb qb
          = (CupedCalculator.new pa qa).bind (fun calc_a =>
              (CupedCalculator.new pb qb).bind (fun calc_b =>
                Except.ok (cupedPairOk fsqrtQ ncdf tcdf tinv engine va vb pm
                  calc_a calc_b)))) := by
  refine ⟨?_, ?_, ?_, ?_⟩
  · intro engine hyp cn vn pm cdata tdata
    obtain ⟨nh, ah, ees, mt, sl, pw, mss⟩ := hyp
    cases mt <;> rfl
  · intro engine hyp alpha1 alpha2 cn vn pm cdata tdata
    obtain ⟨nh, ah, ees, mt, sl, pw, mss⟩ := hyp
    cases mt <;> rfl
  · intro engine va vb pm calc_a calc_b
    rfl
  · intro engine va vb pm pa qa pb qb
    rfl

/-- Counterexample for C3 as stated: `analyze_continuous` in Bayesian mode
with a zero sample size (`n_a = 0`, `std_a = 1`) divides the posterior
variance by zero, the infinity survives the `max(1e-9)` floor, and the
confidence-interval bounds come out infinite (here with concrete stand-ins
for the square root and the normal CDF; the CI bounds do not depend on the
CDF, see `bayes_continuous_ci_cdf_free`). -/
theorem analyze_continuous_infinite_ci_counterexample :
    (analyze_continuous (fun _ => 0) (fun _ => Fp.finite 0) (fun _ _ => Fp.finite 0)
        (fun _ _ => Fp.finite 0) AnalysisEngine.Bayesian 0 1 0 0 1 1).ci_low = Fp.neginf
    ∧ (analyze_continuous (fun _ => 0) (fun _ => Fp.finite 0) (fun _ _ => Fp.finite 0)
        (fun _ _ => Fp.finite 0) AnalysisEngine.Bayesian 0 1 0 0 1 1).ci_low.isFinite
      = false := by
  have h : (analyze_continuous (fun _ => 0) (fun _ => Fp.finite 0) (fun _ _ => Fp.finite 0)
      (fun _ _ => Fp.finite 0) AnalysisEngine.Bayesian 0 1 0 0 1 1).ci_low = Fp.neginf := by
    norm_num [analyze_continuous, bayes_continuous, Fp.ofNat,
      Fp.div_finite_zero_pos, Fp.mul_finite_inf_pos, Fp.div_finite_of_ne]
  exact ⟨h, by rw [h]; rfl⟩

/-- The infinite CI bound in the counterexample does not depend on the
normal-CDF stand-in: it appears for every CDF and square-root function. -/
theorem bayes_continuous_ci_cdf_free (fsqrtQ : ℚ → ℚ) (ncdf : Fp → Fp) :
    (analyze_continuous fsqrtQ ncdf (fun _ _ => Fp.finite 0) (fun _ _ => Fp.finite 0)
      AnalysisEngine.Bayesian 0 1 0 0 1 1).ci_low = Fp.neginf := by
  norm_num [analyze_continuous, bayes_continuous, Fp.ofNat,
    Fp.div_finite_zero_pos, Fp.mul_finite_inf_pos, Fp.div_finite_of_ne]

/-- Claim C3 (amended): `analyze_proportion` returns finite p-values and
CI bounds for every input in both engine modes; `analyze_continuous` does
so in Frequentist mode for every input, and in Bayesian mode whenever both
sample sizes are at least 1 (with a zero sample size the Bayesian
continuous CI bounds can be infinite).  The `statrs` CDFs are assumed
finite on the (finite, respectively positive-df) arguments the code calls
them with. -/
theorem analyze_finite_outputs (fsqrtQ : ℚ → ℚ) (ncdf : Fp → Fp)
    (tcdf tinv : Fp → Fp → Fp)
    (hncdf : ∀ x, x.isFinite = true → (ncdf x).isFinite = true)
    (htcdf : ∀ d x, Fp.lt 0 d = true → x.isFinite = true → (tcdf d x).isFinite = true)
    (htinv : ∀ d x, Fp.lt 0 d = true → x.isFinite = true → (tinv d x).isFinite = true) :
    (∀ engine (successes_a total_a successes_b total_b : ℕ),
      (analyze_proportion fsqrtQ ncdf engine successes_a total_a
        successes_b total_b).finiteOutputs)
    ∧ (∀ engine (mean_a std_a : ℚ) (n_a : ℕ) (mean_b std_b : ℚ) (n_b : ℕ),
        (engine = AnalysisEngine.Frequentist ∨ (1 ≤ n_a ∧ 1 ≤ n_b)) →
        (analyze_continuous fsqrtQ ncdf tcdf tinv engine mean_a std_a n_a
          mean_b std_b n_b).finiteOutputs) := by
  constructor
  · intro engine successes_a total_a successes_b total_b
    cases engine with
    | Frequentist =>
      have h := z_test_proportions_finite fsqrtQ ncdf hncdf
        successes_a total_a successes_b total_b
      exact ⟨h.1, h.2.1, h.2.2⟩
    | Bayesian =>
      have h := bayes_proportion_finite fsqrtQ ncdf hncdf
        successes_a total_a successes_b total_b
      exact ⟨Fp.isFinite_sub (a := 1) rfl h.1, h.2.1, h.2.2⟩
  · intro engine mean_a std_a n_a mean_b std_b n_b hcase
    cases engine with
    | Frequentist =>
      have h := t_test_summary_finite fsqrtQ tcdf tinv htcdf htinv
        mean_a std_a n_a mean_b std_b n_b
      exact ⟨h.1, h.2.1, h.2.2⟩
    | Bayesian =>
      rcases hcase with hF | ⟨hna, hnb⟩
      · exact absurd hF (by simp)
      · have h := bayes_continuous_finite fsqrtQ ncdf hncdf
          mean_a std_a n_a mean_b std_b n_b hna hnb
        exact ⟨Fp.isFinite_sub (a := 1) rfl h.1, h.2.1, h.2.2⟩

/-- Witness for C3 at concrete inputs and concrete CDF stand-ins. -/
theorem analyze_finite_outputs_witness :
    (analyze_proportion (fun _ => 0) (fun _ => Fp.finite 0) AnalysisEngine.Frequentist
      100 1000 130 1000).finiteOutputs
    ∧ (analyze_continuous (fun _ => 0) (fun _ => Fp.finite 0) (fun _ _ => Fp.finite 0)
        (fun _ _ => Fp.finite 0) AnalysisEngine.Bayesian 0 1 5 0 1 7).finiteOutputs :=
  ⟨(analyze_finite_outputs (fun _ => 0) (fun _ => Fp.finite 0) (fun _ _ => Fp.finite 0)
      (fun _ _ => Fp.finite 0) (fun _ _ => rfl) (fun _ _ _ _ => rfl)
      (fun _ _ _ _ => rfl)).1 AnalysisEngine.Frequentist 100 1000 130 1000,
   (analyze_finite_outputs (fun _ => 0) (fun _ => Fp.finite 0) (fun _ _ => Fp.finite 0)
      (fun _ _ => Fp.finite 0) (fun _ _ => rfl) (fun _ _ _ _ => rfl)
      (fun _ _ _ _ => rfl)).2 AnalysisEngine.Bayesian 0 1 5 0 1 7
      (Or.inr ⟨by norm_num, by norm_num⟩)⟩

/-- Witness for C8 at concrete inputs. -/
theorem srm_zero_total_witness :
    (srmCore (fun _ _ => 0)
        [{ name := "control", allocation_percent := 50, is_control := true },
         { name := "treatment", allocation_percent := 50, is_control := false }]
        [("control", 0), ("treatment", 0)]).summary.p_value = 1 :=
  (srm_zero_total (fun _ _ => 0)
    [{ name := "control", allocation_percent := 50, is_control := true },
     { name := "treatment", allocation_percent := 50, is_control := false }]
    [("control", 0), ("treatment", 0)] (by decide)).1

end Expothesis
